import Mathlib

/-!
# point_cloud_transport: the `PointCloudTransport` facade

A shallow embedding of `src/point_cloud_transport.cpp`.

* `std::string` is a sequence of characters: `CppString := List Char`.
* `boost::erase_last_copy` (Boost String Algorithms) is embedded from the library's
  `last_finder` loop followed by the erasure of the found range.
* `pluginlib::ClassLoader<T>` is an external object; the facade only reads its
  `getDeclaredClasses()` and calls `createInstance(name)`, so a loader is a record of these
  two observations.  A call of `createInstance` either returns an instance or throws.
* C++ exceptions are explicit: a function that may throw returns `Except ThrownException _`.
-/

namespace point_cloud_transport

/-- A `std::string`. -/
abbrev CppString := List Char

/-! ## `boost::erase_last_copy` -/

/-- The inner loop of `last_finderF`: advance through the input (from `OutIt2`) and the
search string together while the characters agree.  The match has succeeded exactly when
the search string is exhausted (`SubstrIt == m_Search.end()`). -/
def substrMatches : CppString → CppString → Bool
  | [], _ => true
  | _ :: _, [] => false
  | s :: ss, c :: cs => if c = s then substrMatches ss cs else false

/-- The outer loop of `last_finderF` (bidirectional iterators): `OutIt` walks from `End`
down to `Begin`; `k` is the offset of `OutIt`.  The first position (from the end) at which
the search string matches is returned as the range `(OutIt2, InnerIt)`; running off the
beginning yields no match. -/
def last_finder_loop (search input : CppString) : Nat → Option (Nat × Nat)
  | 0 => none
  | k + 1 =>
    if substrMatches search (input.drop k) then some (k, k + search.length)
    else last_finder_loop search input k

/-- The finder `last_finder(search)` applied to `input`: an empty search string finds
nothing, otherwise the loop starts at `End`. -/
def last_finder (search input : CppString) : Option (Nat × Nat) :=
  if search.isEmpty then none else last_finder_loop search input input.length

/-- `boost::erase_last_copy(input, search)`: a copy of `input` in which the last
occurrence of `search` is removed; the copy is unchanged when there is none. -/
def erase_last_copy (input search : CppString) : CppString :=
  match last_finder search input with
  | none => input
  | some (b, e) => input.take b ++ input.drop e

/-- The literal `"_sub"`. -/
def subSuffix : CppString := ['_', 's', 'u', 'b']

/-! ## pluginlib -/

/-- The dynamic type of an exception leaving `createInstance`, as far as the `catch`
clauses of this file distinguish it: derived from `pluginlib::LibraryLoadException`,
derived from `pluginlib::CreateClassException`, or anything else. -/
inductive ThrownException where
  | LibraryLoadException
  | CreateClassException
  | other
  deriving DecidableEq

/-- What the facade observes of a `pluginlib::ClassLoader<T>`: the vector returned by
`getDeclaredClasses()` and, per lookup name, the outcome of `createInstance`. -/
structure ClassLoader (T : Type) where
  getDeclaredClasses : List CppString
  createInstance : CppString → Except ThrownException T

/-! ## ROS, pluginlib and the plugin-backed classes -/

/-- The types and constructors the facade uses but does not define: ROS types, the two
plugin base classes, the construction of a `pluginlib::ClassLoader<T>` from a package name
and a base-class name, and the constructors of this package's `Publisher` and `Subscriber`
(declared in headers that are not part of the translated file). -/
structure Environment where
  NodeHandle : Type
  PublisherPlugin : Type
  SubscriberPlugin : Type
  SubscriberStatusCallback : Type
  VoidPtr : Type
  PointCloudCallback : Type
  TransportHints : Type
  Publisher : Type
  Subscriber : Type
  make_PubLoader : CppString → CppString → ClassLoader PublisherPlugin
  make_SubLoader : CppString → CppString → ClassLoader SubscriberPlugin
  Publisher_ctor : NodeHandle → CppString → Nat → SubscriberStatusCallback →
    SubscriberStatusCallback → VoidPtr → Bool → ClassLoader PublisherPlugin → Publisher
  Subscriber_ctor : NodeHandle → CppString → Nat → PointCloudCallback → VoidPtr →
    TransportHints → ClassLoader SubscriberPlugin → Subscriber

/-! ## `PointCloudTransport` -/

/-- `PointCloudTransport::Impl`: the node handle and the two loaders. -/
structure Impl (env : Environment) where
  nh_ : env.NodeHandle
  pub_loader_ : ClassLoader env.PublisherPlugin
  sub_loader_ : ClassLoader env.SubscriberPlugin

/-- The constructor `Impl(const ros::NodeHandle& nh)`. -/
def Impl.ctor (env : Environment) (nh : env.NodeHandle) : Impl env where
  nh_ := nh
  pub_loader_ := env.make_PubLoader "point_cloud_transport".toList
    "point_cloud_transport::PublisherPlugin".toList
  sub_loader_ := env.make_SubLoader "point_cloud_transport".toList
    "point_cloud_transport::SubscriberPlugin".toList

/-- The class `PointCloudTransport`: it owns an `Impl`. -/
structure PointCloudTransport (env : Environment) where
  impl_ : Impl env

namespace PointCloudTransport

variable {env : Environment}

/-- The constructor `PointCloudTransport(const ros::NodeHandle& nh)`. -/
def ctor (env : Environment) (nh : env.NodeHandle) : PointCloudTransport env where
  impl_ := Impl.ctor env nh

/-- The six-argument `PointCloudTransport::advertise` (`queue_size` is a `uint32_t` that is
only passed on). -/
def advertise (self : PointCloudTransport env) (base_topic : CppString) (queue_size : Nat)
    (connect_cb disconnect_cb : env.SubscriberStatusCallback) (tracked_object : env.VoidPtr)
    (latch : Bool) : env.Publisher :=
  env.Publisher_ctor self.impl_.nh_ base_topic queue_size connect_cb disconnect_cb
    tracked_object latch self.impl_.pub_loader_

/-- `PointCloudTransport::subscribe`. -/
def subscribe (self : PointCloudTransport env) (base_topic : CppString) (queue_size : Nat)
    (callback : env.PointCloudCallback) (tracked_object : env.VoidPtr)
    (transport_hints : env.TransportHints) : env.Subscriber :=
  env.Subscriber_ctor self.impl_.nh_ base_topic queue_size callback tracked_object
    transport_hints self.impl_.sub_loader_

/-- `PointCloudTransport::getDeclaredTransports`: the declared class names of the
subscriber-side loader are copied and each one is overwritten by
`erase_last_copy(transport, "_sub")`. -/
def getDeclaredTransports (self : PointCloudTransport env) : List CppString :=
  self.impl_.sub_loader_.getDeclaredClasses.map
    (fun transport => erase_last_copy transport subSuffix)

/-- The `BOOST_FOREACH` of `getLoadableTransports` over the remaining declared classes,
with `loadableTransports` as accumulator.  An exception caught by one of the two `catch`
clauses leaves the accumulator as it is; any other exception leaves the function. -/
def getLoadableTransportsLoop (self : PointCloudTransport env) :
    List CppString → List CppString → Except ThrownException (List CppString)
  | [], loadableTransports => .ok loadableTransports
  | transportPlugin :: rest, loadableTransports =>
    match self.impl_.sub_loader_.createInstance transportPlugin with
    | .ok _ =>
      getLoadableTransportsLoop self rest
        (loadableTransports ++ [erase_last_copy transportPlugin subSuffix])
    | .error .LibraryLoadException => getLoadableTransportsLoop self rest loadableTransports
    | .error .CreateClassException => getLoadableTransportsLoop self rest loadableTransports
    | .error e => .error e

/-- `PointCloudTransport::getLoadableTransports`. -/
def getLoadableTransports (self : PointCloudTransport env) :
    Except ThrownException (List CppString) :=
  getLoadableTransportsLoop self self.impl_.sub_loader_.getDeclaredClasses []

end PointCloudTransport

/-! ## Vocabulary of the properties -/

/-- Whether `createInstance` returned an instance. -/
def succeeds {T : Type} : Except ThrownException T → Bool
  | .ok _ => true
  | .error _ => false

/-- Whether `createInstance` threw an exception that `getLoadableTransports` catches. -/
def throwsCaught {T : Type} : Except ThrownException T → Bool
  | .error .LibraryLoadException => true
  | .error .CreateClassException => true
  | _ => false

/-- Whether `createInstance` threw an exception that no `catch` clause matches. -/
def throwsUncaught {T : Type} : Except ThrownException T → Bool
  | .error .other => true
  | _ => false

/-- The list the description of `getLoadableTransports` names: in declaration order,
`erase_last_copy(name, "_sub")` for the declared names whose `createInstance` succeeds. -/
def loadableNames {T : Type} (loader : ClassLoader T) (declared : List CppString) :
    List CppString :=
  (declared.filter (fun name => succeeds (loader.createInstance name))).map
    (fun name => erase_last_copy name subSuffix)

/-! ## Concrete environments used to instantiate the statements -/

/-- An environment in which every external type is trivial and the subscriber-side
loader is supplied directly. -/
def unitEnv (sub : ClassLoader Unit) : Environment where
  NodeHandle := Unit
  PublisherPlugin := Unit
  SubscriberPlugin := Unit
  SubscriberStatusCallback := Unit
  VoidPtr := Unit
  PointCloudCallback := Unit
  TransportHints := Unit
  Publisher := Unit
  Subscriber := Unit
  make_PubLoader := fun _ _ => ⟨[], fun _ => .error .LibraryLoadException⟩
  make_SubLoader := fun _ _ => sub
  Publisher_ctor := fun _ _ _ _ _ _ _ _ => ()
  Subscriber_ctor := fun _ _ _ _ _ _ _ => ()

/-- Three declared subscriber plugins: `raw_sub` loads, the library of `draco_sub` is
missing, `zlib_sub` cannot be instantiated; every other lookup name is unknown. -/
def sampleLoader : ClassLoader Unit where
  getDeclaredClasses := ["raw_sub".toList, "draco_sub".toList, "zlib_sub".toList]
  createInstance := fun name =>
    if name = "raw_sub".toList then .ok ()
    else if name = "zlib_sub".toList then .error .CreateClassException
    else .error .LibraryLoadException

/-- Two declared subscriber plugins: `raw_sub` loads, the constructor of `bad_sub` throws
an exception that is not a pluginlib exception. -/
def throwingLoader : ClassLoader Unit where
  getDeclaredClasses := ["raw_sub".toList, "bad_sub".toList]
  createInstance := fun name =>
    if name = "raw_sub".toList then .ok () else .error .other

/-! ## Lemmas on `erase_last_copy` -/

theorem substrMatches_append (s rest : CppString) : substrMatches s (s ++ rest) = true := by
  induction s with
  | nil => simp [substrMatches]
  | cons a s ih => simpa [substrMatches] using ih

theorem substrMatches_length_le :
    ∀ (s input : CppString), substrMatches s input = true → s.length ≤ input.length
  | [], _, _ => by simp
  | _ :: _, [], h => by simp [substrMatches] at h
  | a :: s, c :: cs, h => by
    by_cases hc : c = a
    · simp only [substrMatches, hc, if_true] at h
      have := substrMatches_length_le s cs h
      simp only [List.length_cons]
      omega
    · simp [substrMatches, hc] at h

/-- Started at most `s.length` positions from the end of `t ++ s`, the backward search
stops at the occurrence of `s` that ends the input. -/
theorem last_finder_loop_suffix (s t : CppString) :
    ∀ j, j < s.length →
      last_finder_loop s (t ++ s) (t.length + j + 1) = some (t.length, t.length + s.length)
  | 0, _ => by
    have hd : List.drop t.length (t ++ s) = s := by simp
    have hm : substrMatches s s = true := by simpa using substrMatches_append s []
    simp [last_finder_loop, hd, hm]
  | j + 1, hj => by
    have ih := last_finder_loop_suffix s t j (by omega)
    have hno : substrMatches s (List.drop (t.length + (j + 1)) (t ++ s)) = false := by
      cases hm : substrMatches s (List.drop (t.length + (j + 1)) (t ++ s)) with
      | false => rfl
      | true =>
        have hl := substrMatches_length_le _ _ hm
        simp only [List.length_drop, List.length_append] at hl
        omega
    have hstep : last_finder_loop s (t ++ s) (t.length + (j + 1) + 1)
        = last_finder_loop s (t ++ s) (t.length + j + 1) := by
      show (if substrMatches s (List.drop (t.length + (j + 1)) (t ++ s)) then _ else _) = _
      rw [hno]
      rfl
    rw [hstep, ih]

/-- Erasing the last occurrence of a non-empty `s` from `t ++ s` leaves `t`. -/
theorem erase_last_copy_append (t s : CppString) (hs : s ≠ []) :
    erase_last_copy (t ++ s) s = t := by
  have hpos : 0 < s.length := List.length_pos.mpr hs
  have hloop := last_finder_loop_suffix s t (s.length - 1) (by omega)
  have hk : t.length + (s.length - 1) + 1 = (t ++ s).length := by
    simp only [List.length_append]; omega
  rw [hk] at hloop
  have hfind : last_finder s (t ++ s) = some (t.length, t.length + s.length) := by
    unfold last_finder
    have : s.isEmpty = false := by
      cases s with
      | nil => exact absurd rfl hs
      | cons _ _ => rfl
    rw [this]
    simpa using hloop
  unfold erase_last_copy
  rw [hfind]
  have h2 : List.drop (t.length + s.length) (t ++ s) = [] := by
    apply List.drop_eq_nil_of_le
    simp
  simp [h2]

/-- A name that ends in `"_sub"` loses exactly its final four characters. -/
theorem erase_last_copy_sub (name : CppString) (h : subSuffix <:+ name) :
    erase_last_copy name subSuffix = name.take (name.length - 4) := by
  obtain ⟨t, rfl⟩ := h
  rw [erase_last_copy_append t subSuffix (by simp [subSuffix])]
  simp [subSuffix]

/-! ## Lemmas on the loop of `getLoadableTransports` -/

namespace PointCloudTransport

variable {env : Environment}

/-- When no remaining class throws an uncaught exception the loop returns, having
appended the names of the classes that loaded. -/
theorem getLoadableTransportsLoop_ok (self : PointCloudTransport env) :
    ∀ (names acc : List CppString),
      (∀ name ∈ names, throwsUncaught (self.impl_.sub_loader_.createInstance name) = false) →
      getLoadableTransportsLoop self names acc
        = .ok (acc ++ loadableNames self.impl_.sub_loader_ names)
  | [], acc, _ => by simp [getLoadableTransportsLoop, loadableNames]
  | c :: rest, acc, h => by
    have hrest : ∀ name ∈ rest,
        throwsUncaught (self.impl_.sub_loader_.createInstance name) = false :=
      fun name hn => h name (List.mem_cons_of_mem _ hn)
    have hc := h c (List.mem_cons_self _ _)
    unfold getLoadableTransportsLoop
    cases hr : self.impl_.sub_loader_.createInstance c with
    | ok v =>
      simp only []
      rw [getLoadableTransportsLoop_ok self rest _ hrest]
      simp [loadableNames, List.filter_cons, hr, succeeds]
    | error e =>
      cases e with
      | LibraryLoadException =>
        simp only []
        rw [getLoadableTransportsLoop_ok self rest _ hrest]
        simp [loadableNames, List.filter_cons, hr, succeeds]
      | CreateClassException =>
        simp only []
        rw [getLoadableTransportsLoop_ok self rest _ hrest]
        simp [loadableNames, List.filter_cons, hr, succeeds]
      | other => simp [hr, throwsUncaught] at hc

/-- An uncaught exception thrown for one of the remaining classes leaves the loop. -/
theorem getLoadableTransportsLoop_error (self : PointCloudTransport env) :
    ∀ (names acc : List CppString),
      (∃ name ∈ names, throwsUncaught (self.impl_.sub_loader_.createInstance name) = true) →
      getLoadableTransportsLoop self names acc = .error .other
  | [], _, h => by simp at h
  | c :: rest, acc, h => by
    unfold getLoadableTransportsLoop
    cases hr : self.impl_.sub_loader_.createInstance c with
    | ok v =>
      simp only []
      apply getLoadableTransportsLoop_error self rest
      obtain ⟨name, hn, hu⟩ := h
      rcases List.mem_cons.mp hn with rfl | hn
      · simp [hr, throwsUncaught] at hu
      · exact ⟨name, hn, hu⟩
    | error e =>
      cases e with
      | LibraryLoadException =>
        simp only []
        apply getLoadableTransportsLoop_error self rest
        obtain ⟨name, hn, hu⟩ := h
        rcases List.mem_cons.mp hn with rfl | hn
        · simp [hr, throwsUncaught] at hu
        · exact ⟨name, hn, hu⟩
      | CreateClassException =>
        simp only []
        apply getLoadableTransportsLoop_error self rest
        obtain ⟨name, hn, hu⟩ := h
        rcases List.mem_cons.mp hn with rfl | hn
        · simp [hr, throwsUncaught] at hu
        · exact ⟨name, hn, hu⟩
      | other => rfl

end PointCloudTransport

/-! ## The properties of the facade -/

/-- C1: `getDeclaredTransports`. When every class name declared by the subscriber-side
loader ends in `"_sub"`, the result has the length of the declared list and, position by
position, holds the declared name without its final four characters. -/
theorem getDeclaredTransports_strips_sub {env : Environment} (self : PointCloudTransport env)
    (h : ∀ name ∈ self.impl_.sub_loader_.getDeclaredClasses, subSuffix <:+ name) :
    self.getDeclaredTransports.length = self.impl_.sub_loader_.getDeclaredClasses.length ∧
    ∀ i : Nat, self.getDeclaredTransports[i]? =
      (self.impl_.sub_loader_.getDeclaredClasses[i]?).map
        (fun name => name.take (name.length - 4)) := by
  refine ⟨by simp [PointCloudTransport.getDeclaredTransports], fun i => ?_⟩
  simp only [PointCloudTransport.getDeclaredTransports, List.getElem?_map]
  cases hi : self.impl_.sub_loader_.getDeclaredClasses[i]? with
  | none => rfl
  | some name =>
    have hmem : name ∈ self.impl_.sub_loader_.getDeclaredClasses :=
      List.getElem?_mem hi
    simp [erase_last_copy_sub name (h name hmem)]

/-- C1 at the sample loader, whose three declared names all end in `"_sub"`. -/
theorem getDeclaredTransports_strips_sub_sample :
    (∀ name ∈ (PointCloudTransport.ctor (unitEnv sampleLoader)
        ()).impl_.sub_loader_.getDeclaredClasses, subSuffix <:+ name) ∧
    (PointCloudTransport.ctor (unitEnv sampleLoader) ()).getDeclaredTransports.length = 3 ∧
    (PointCloudTransport.ctor (unitEnv sampleLoader) ()).getDeclaredTransports[1]?
      = some "draco".toList := by
  have hsuf : ∀ name ∈ (PointCloudTransport.ctor (unitEnv sampleLoader)
      ()).impl_.sub_loader_.getDeclaredClasses, subSuffix <:+ name := by
    intro name hn
    have hn2 : name ∈ ["raw_sub".toList, "draco_sub".toList, "zlib_sub".toList] := hn
    simp only [List.mem_cons, List.mem_singleton, List.not_mem_nil, or_false] at hn2
    rcases hn2 with rfl | rfl | rfl
    · exact ⟨"raw".toList, rfl⟩
    · exact ⟨"draco".toList, rfl⟩
    · exact ⟨"zlib".toList, rfl⟩
  have key := getDeclaredTransports_strips_sub
    (PointCloudTransport.ctor (unitEnv sampleLoader) ()) hsuf
  exact ⟨hsuf, key.1, (key.2 1).trans rfl⟩

/-- C2: `getLoadableTransports`. When each declared class either loads or throws
`LibraryLoadException` or `CreateClassException`, the call returns normally and its result
is, in declaration order, `erase_last_copy(name, "_sub")` for the declared names whose
`createInstance` succeeds (the throwing classes are omitted); and whenever the call returns
a result at all, it is that list. -/
theorem getLoadableTransports_loadable {env : Environment} (self : PointCloudTransport env) :
    ((∀ name ∈ self.impl_.sub_loader_.getDeclaredClasses,
        succeeds (self.impl_.sub_loader_.createInstance name) = true ∨
        throwsCaught (self.impl_.sub_loader_.createInstance name) = true) →
      self.getLoadableTransports
        = .ok (loadableNames self.impl_.sub_loader_ self.impl_.sub_loader_.getDeclaredClasses)) ∧
    (∀ r, self.getLoadableTransports = .ok r →
      r = loadableNames self.impl_.sub_loader_ self.impl_.sub_loader_.getDeclaredClasses) := by
  constructor
  · intro h
    have hno : ∀ name ∈ self.impl_.sub_loader_.getDeclaredClasses,
        throwsUncaught (self.impl_.sub_loader_.createInstance name) = false := by
      intro name hn
      rcases h name hn with hs | hs
      · cases hr : self.impl_.sub_loader_.createInstance name with
        | ok v => rfl
        | error e => simp [hr, succeeds] at hs
      · cases hr : self.impl_.sub_loader_.createInstance name with
        | ok v => rfl
        | error e => cases e <;> simp_all [throwsCaught, throwsUncaught]
    simpa [PointCloudTransport.getLoadableTransports] using
      PointCloudTransport.getLoadableTransportsLoop_ok self _ [] hno
  · intro r hr
    by_cases hex : ∃ name ∈ self.impl_.sub_loader_.getDeclaredClasses,
        throwsUncaught (self.impl_.sub_loader_.createInstance name) = true
    · have herr := PointCloudTransport.getLoadableTransportsLoop_error self _ [] hex
      rw [PointCloudTransport.getLoadableTransports, herr] at hr
      cases hr
    · have hno : ∀ name ∈ self.impl_.sub_loader_.getDeclaredClasses,
          throwsUncaught (self.impl_.sub_loader_.createInstance name) = false := by
        intro name hn
        cases hu : throwsUncaught (self.impl_.sub_loader_.createInstance name) with
        | false => rfl
        | true => exact absurd ⟨name, hn, hu⟩ hex
      have hok := PointCloudTransport.getLoadableTransportsLoop_ok self _ [] hno
      rw [PointCloudTransport.getLoadableTransports, hok] at hr
      simpa using (Except.ok.inj hr).symm

/-- C2 at the sample loader: one class loads, one throws `LibraryLoadException`, one
throws `CreateClassException`; the call returns `["raw"]`. -/
theorem getLoadableTransports_loadable_sample :
    (∀ name ∈ (PointCloudTransport.ctor (unitEnv sampleLoader)
        ()).impl_.sub_loader_.getDeclaredClasses,
      succeeds ((PointCloudTransport.ctor (unitEnv sampleLoader)
        ()).impl_.sub_loader_.createInstance name) = true ∨
      throwsCaught ((PointCloudTransport.ctor (unitEnv sampleLoader)
        ()).impl_.sub_loader_.createInstance name) = true) ∧
    (PointCloudTransport.ctor (unitEnv sampleLoader) ()).getLoadableTransports
      = .ok ["raw".toList] := by
  have hall : ∀ name ∈ (PointCloudTransport.ctor (unitEnv sampleLoader)
        ()).impl_.sub_loader_.getDeclaredClasses,
      succeeds ((PointCloudTransport.ctor (unitEnv sampleLoader)
        ()).impl_.sub_loader_.createInstance name) = true ∨
      throwsCaught ((PointCloudTransport.ctor (unitEnv sampleLoader)
        ()).impl_.sub_loader_.createInstance name) = true := by
    intro name hn
    have hn2 : name ∈ ["raw_sub".toList, "draco_sub".toList, "zlib_sub".toList] := hn
    simp only [List.mem_cons, List.mem_singleton, List.not_mem_nil, or_false] at hn2
    rcases hn2 with rfl | rfl | rfl
    · exact Or.inl rfl
    · exact Or.inr rfl
    · exact Or.inr rfl
  exact ⟨hall, ((getLoadableTransports_loadable
    (PointCloudTransport.ctor (unitEnv sampleLoader) ())).1 hall).trans rfl⟩

/-- C3: the code at the failing input. `raw_sub` and `bad_sub` are declared, `raw_sub`
loads and `createInstance` of `bad_sub` throws an exception that is neither a
`LibraryLoadException` nor a `CreateClassException`. The comment in the source says such a
plugin is ignored; the two typed `catch` clauses do not match it, the exception leaves
`getLoadableTransports` and the call returns no result. -/
theorem getLoadableTransports_raises_on_other_exception :
    "bad_sub".toList ∈ (PointCloudTransport.ctor (unitEnv throwingLoader)
      ()).impl_.sub_loader_.getDeclaredClasses ∧
    (PointCloudTransport.ctor (unitEnv throwingLoader)
      ()).impl_.sub_loader_.createInstance "bad_sub".toList = .error .other ∧
    (PointCloudTransport.ctor (unitEnv throwingLoader) ()).getLoadableTransports
      = .error .other ∧
    ¬ ∃ r, (PointCloudTransport.ctor (unitEnv throwingLoader) ()).getLoadableTransports
      = .ok r := by
  have hmem : "bad_sub".toList ∈ (PointCloudTransport.ctor (unitEnv throwingLoader)
      ()).impl_.sub_loader_.getDeclaredClasses := by
    show "bad_sub".toList ∈ ["raw_sub".toList, "bad_sub".toList]
    simp
  have herr : (PointCloudTransport.ctor (unitEnv throwingLoader) ()).getLoadableTransports
      = .error .other := rfl
  refine ⟨hmem, rfl, herr, ?_⟩
  rintro ⟨r, hr⟩
  rw [herr] at hr
  cases hr

/-- C4: the six-argument `advertise` forwards its call unchanged. The result is the
`Publisher` constructed from the object's node handle, the given `base_topic`,
`queue_size`, `connect_cb`, `disconnect_cb`, `tracked_object` and `latch`, and the
publisher-side loader; for an object made by the constructor from `nh`, the node handle is
`nh` and the loader is the one constructed for `point_cloud_transport::PublisherPlugin`. -/
theorem advertise_forwards (env : Environment) (self : PointCloudTransport env)
    (nh : env.NodeHandle) (base_topic : CppString) (queue_size : Nat)
    (connect_cb disconnect_cb : env.SubscriberStatusCallback) (tracked_object : env.VoidPtr)
    (latch : Bool) :
    self.advertise base_topic queue_size connect_cb disconnect_cb tracked_object latch
      = env.Publisher_ctor self.impl_.nh_ base_topic queue_size connect_cb disconnect_cb
          tracked_object latch self.impl_.pub_loader_ ∧
    (PointCloudTransport.ctor env nh).advertise base_topic queue_size connect_cb
        disconnect_cb tracked_object latch
      = env.Publisher_ctor nh base_topic queue_size connect_cb disconnect_cb tracked_object
          latch (env.make_PubLoader "point_cloud_transport".toList
            "point_cloud_transport::PublisherPlugin".toList) :=
  ⟨rfl, rfl⟩

/-- C5: `subscribe` forwards its call unchanged. The result is the `Subscriber`
constructed from the object's node handle, the given `base_topic`, `queue_size`,
`callback`, `tracked_object` and `transport_hints`, and the subscriber-side loader; for an
object made by the constructor from `nh`, the node handle is `nh` and the loader is the one
constructed for `point_cloud_transport::SubscriberPlugin`. -/
theorem subscribe_forwards (env : Environment) (self : PointCloudTransport env)
    (nh : env.NodeHandle) (base_topic : CppString) (queue_size : Nat)
    (callback : env.PointCloudCallback) (tracked_object : env.VoidPtr)
    (transport_hints : env.TransportHints) :
    self.subscribe base_topic queue_size callback tracked_object transport_hints
      = env.Subscriber_ctor self.impl_.nh_ base_topic queue_size callback tracked_object
          transport_hints self.impl_.sub_loader_ ∧
    (PointCloudTransport.ctor env nh).subscribe base_topic queue_size callback
        tracked_object transport_hints
      = env.Subscriber_ctor nh base_topic queue_size callback tracked_object transport_hints
          (env.make_SubLoader "point_cloud_transport".toList
            "point_cloud_transport::SubscriberPlugin".toList) :=
  ⟨rfl, rfl⟩

end point_cloud_transport
